import Mathlib

/-!
Verification of the Windows registration shim of the `flux_net`
(Network-Reachability) Flutter plugin fragment.

The fragment consists of two source files:
`src/windows/flux_net_plugin.h` (the declaration of the class
`flux_net::FluxNetPlugin`) and `src/windows/flux_net_plugin_c_api.cpp`
(the C-API registration entry point, the fragment's only function
definition).  We give a shallow embedding of the code's semantics where a
body is present, model the absent bodies from the specification where
needed, and additionally transcribe an inventory of the declarations the
two files contain, so that properties about what the fragment does and
does not declare can be settled mechanically.
-/

namespace FluxNet

/-- `FlutterDesktopPluginRegistrarRef`: the host's opaque registrar handle
(modelled as a number; `0` plays the role of a null handle). -/
abbrev FlutterDesktopPluginRegistrarRef : Type := Nat

/-- `flutter::PluginRegistrarWindows`: the typed registrar for the Windows
platform.  Host-defined; modelled as a wrapper of the opaque handle it was
obtained from. -/
structure PluginRegistrarWindows where
  ref : FlutterDesktopPluginRegistrarRef
deriving DecidableEq, Repr

namespace PluginRegistrarManager

/-- `flutter::PluginRegistrarManager::GetInstance()
      ->GetRegistrar<flutter::PluginRegistrarWindows>(registrar)`:
the host's singleton manager mapping an opaque handle to the typed
registrar for this platform (host-defined; modelled as wrapping the
handle). -/
def GetRegistrar (registrar : FlutterDesktopPluginRegistrarRef) :
    PluginRegistrarWindows :=
  ⟨registrar⟩

end PluginRegistrarManager

/-- Host-managed registration tables (spec §4.1: the output of registration
is a side effect on host-managed tables). -/
structure HostState where
  /-- typed registrars with which a `FluxNetPlugin` instance has been
  constructed and registered -/
  registeredWith : List PluginRegistrarWindows
  /-- number of method channels bound so far -/
  boundChannels : Nat
deriving DecidableEq, Repr

/-- `flutter::EncodableValue`: the host-defined variant argument payload
(opaque model). -/
abbrev EncodableValue : Type := Nat

/-- `flutter::MethodCall<flutter::EncodableValue>`: a method name together
with its argument payload. -/
structure MethodCall where
  method_name : String
  arguments : EncodableValue
deriving DecidableEq, Repr

/-- One completion of a `flutter::MethodResult` sink: success, error, or
not-implemented. -/
inductive MethodOutcome
  | success (value : EncodableValue)
  | error (code message : String)
  | notImplemented
deriving DecidableEq, Repr

namespace flux_net

/-- Modelled from the spec: the definition of
`FluxNetPlugin::RegisterWithRegistrar` (a `flux_net_plugin.cpp`) is not
among the fragment's source files; only its declaration is
(flux_net_plugin.h, line 13).  Spec §4.1: given the typed registrar,
construct the plugin and bind its method channel, registering into
host-managed tables. -/
def FluxNetPlugin.RegisterWithRegistrar (registrar : PluginRegistrarWindows)
    (host : HostState) : HostState :=
  { registeredWith := registrar :: host.registeredWith
    boundChannels := host.boundChannels + 1 }

/-- Modelled from the spec: the body of `FluxNetPlugin::HandleMethodCall`
(a `flux_net_plugin.cpp`) is not among the fragment's source files; only
its declaration is (flux_net_plugin.h, lines 24–26).  Spec §4.2: the
handler must produce exactly one outcome via the result sink; spec §8: an
unhandled method call yields the framework's standard not-implemented
outcome.  The returned list records the sink completions the handler
invokes, in order. -/
def FluxNetPlugin.HandleMethodCall (method_call : MethodCall) :
    List MethodOutcome :=
  [MethodOutcome.notImplemented]

end flux_net

/-- `FluxNetPluginCApiRegisterWithRegistrar`
(flux_net_plugin_c_api.cpp, lines 7–12): obtains the typed Windows
registrar for the opaque handle from the host's registrar manager and
forwards it, unconditionally, to `FluxNetPlugin::RegisterWithRegistrar`. -/
def FluxNetPluginCApiRegisterWithRegistrar
    (registrar : FlutterDesktopPluginRegistrarRef) (host : HostState) :
    HostState :=
  flux_net.FluxNetPlugin.RegisterWithRegistrar
    (PluginRegistrarManager.GetRegistrar registrar) host

/-! ## Declaration inventory of the fragment

The following definitions transcribe, declaration by declaration, what the
two source files contain, so that claims about the shape of the fragment
(what is declared, what is defined, what is deleted or virtual) become
decidable statements. -/

/-- Kinds of C++ declarations appearing in the fragment. -/
inductive CppDeclKind
  | classDecl
  | staticMemberFunction
  | constructor
  | destructor
  | copyConstructor
  | copyAssignment
  | memberFunction
  | freeFunction
deriving DecidableEq, Repr

/-- One C++ declaration of the fragment, as written in the source. -/
structure CppDecl where
  name : String
  kind : CppDeclKind
  /-- a definition (function body) for it appears in the fragment -/
  hasDefinition : Bool
  /-- declared `= delete` -/
  isDeleted : Bool
  /-- declared `virtual` -/
  isVirtual : Bool
deriving DecidableEq, Repr

/-- A C++ class declaration of the fragment. -/
structure CppClass where
  name : String
  publicBases : List String
  dataMembers : List String
  members : List CppDecl
deriving DecidableEq, Repr

/-- The class `flux_net::FluxNetPlugin` (flux_net_plugin.h, lines 11–27):
public derivation from `flutter::Plugin`, six member declarations, no data
members. -/
def fluxNetPluginClass : CppClass :=
  { name := "FluxNetPlugin"
    publicBases := ["flutter::Plugin"]
    dataMembers := []
    members :=
      [ ⟨"RegisterWithRegistrar", .staticMemberFunction, false, false, false⟩
      , ⟨"FluxNetPlugin", .constructor, false, false, false⟩
      , ⟨"~FluxNetPlugin", .destructor, false, false, true⟩
      , ⟨"FluxNetPlugin(const FluxNetPlugin &)", .copyConstructor,
          false, true, false⟩
      , ⟨"operator=(const FluxNetPlugin &)", .copyAssignment,
          false, true, false⟩
      , ⟨"HandleMethodCall", .memberFunction, false, false, false⟩ ] }

/-- The one free function of the fragment, with its definition
(flux_net_plugin_c_api.cpp, lines 7–12). -/
def cApiFunctionDecl : CppDecl :=
  ⟨"FluxNetPluginCApiRegisterWithRegistrar", .freeFunction,
    true, false, false⟩

/-- Every class the fragment declares. -/
def fragmentClasses : List CppClass := [fluxNetPluginClass]

/-- Every function-like declaration the fragment's two source files
contain. -/
def fragmentDecls : List CppDecl :=
  fluxNetPluginClass.members ++ [cApiFunctionDecl]

/-- Global or static mutable variables declared by the fragment: neither
source file declares any. -/
def fragmentGlobalVariables : List String := []

/-- Qualified names of process-global state the fragment reads
(flux_net_plugin_c_api.cpp, line 10: the registrar-manager singleton). -/
def globalStateAccesses : List String :=
  ["flutter::PluginRegistrarManager::GetInstance"]

/-- Host-framework linkage of an entry point. -/
inductive Linkage
  | c
  | cpp
deriving DecidableEq, Repr

/-- An externally visible entry point of the fragment. -/
structure EntryPoint where
  name : String
  linkage : Linkage
  params : List String
  returnType : String
deriving DecidableEq, Repr

/-- Modelled from the spec: the export header
(`include/flux_net/flux_net_plugin_c_api.h`) carrying the `extern "C"`
declaration is not among the fragment's source files; spec §6 states the
only boundary is a C-linkage registration function taking an opaque
registrar reference.  The fragment's one definition with external
visibility (flux_net_plugin_c_api.cpp, lines 7–8) is transcribed here with
that linkage. -/
def exportedEntryPoints : List EntryPoint :=
  [ ⟨"FluxNetPluginCApiRegisterWithRegistrar", .c,
      ["FlutterDesktopPluginRegistrarRef"], "void"⟩ ]

/-- Kinds of operations a function body of the fragment performs. -/
inductive OpKind
  | hostCall
  | fragmentCall
  | branch
  | loop
  | syncPrimitive
  | blockingCall
deriving DecidableEq, Repr

/-- One operation of a function body. -/
structure Op where
  kind : OpKind
  callee : String
deriving DecidableEq, Repr

/-- The operations of `FluxNetPluginCApiRegisterWithRegistrar`
(flux_net_plugin_c_api.cpp, lines 9–11): a single expression statement of
three nested calls, in evaluation order. -/
def cApiBodyOps : List Op :=
  [ ⟨.hostCall, "flutter::PluginRegistrarManager::GetInstance"⟩
  , ⟨.hostCall, "GetRegistrar<flutter::PluginRegistrarWindows>"⟩
  , ⟨.fragmentCall, "flux_net::FluxNetPlugin::RegisterWithRegistrar"⟩ ]

/-- The operations of `FluxNetPlugin::HandleMethodCall` inside the
fragment: none — the member is a pure declaration (flux_net_plugin.h,
lines 23–26). -/
def handleMethodCallBodyOps : List Op := []

/-! ## Semantic consequences of the inventory -/

/-- C++ rule: a class whose copy constructor is declared is
copy-constructible iff that declaration is not deleted. -/
def copyConstructible (c : CppClass) : Bool :=
  c.members.any fun d => d.kind == .copyConstructor && !d.isDeleted

/-- C++ rule: a class whose copy assignment operator is declared is
copy-assignable iff that declaration is not deleted. -/
def copyAssignable (c : CppClass) : Bool :=
  c.members.any fun d => d.kind == .copyAssignment && !d.isDeleted

/-- Destructor-dispatch data of a C++ class. -/
structure ClassInfo where
  name : String
  dtorVirtual : Bool
deriving DecidableEq, Repr

/-- `flutter::Plugin`, the host-defined base class of the plugin ABI; the
host declares its destructor `virtual` (host-defined, not part of the
fragment). -/
def flutterPlugin : ClassInfo := ⟨"flutter::Plugin", true⟩

/-- `flux_net::FluxNetPlugin`: flux_net_plugin.h, line 17 declares
`virtual ~FluxNetPlugin();`. -/
def fluxNetPluginInfo : ClassInfo := ⟨"FluxNetPlugin", true⟩

/-- C++ rule for `delete p` where `p` has static type `staticType` and the
object's dynamic type is `dynamicType`: if the static type's destructor is
virtual, the dynamic type's destructor runs; otherwise the deletion is
well-defined only when the two types agree.  `some d` means the destructor
of class `d` runs; `none` marks undefined behaviour. -/
def deleteThroughBase (staticType dynamicType : ClassInfo) :
    Option String :=
  if staticType.dtorVirtual then some dynamicType.name
  else if staticType == dynamicType then some staticType.name
  else none

/-- Per-instance observable state of a C++ class: a valuation of its data
members. -/
def InstanceState (c : CppClass) : Type :=
  { m : String // m ∈ c.dataMembers } → Nat

/-! ## Theorems settling the claims -/

/-- C1: for every registrar handle, the C-API entry point passes the typed
Windows registrar obtained from the host's `PluginRegistrarManager` to
`FluxNetPlugin::RegisterWithRegistrar`, which registers the constructed
plugin with that registrar and binds its method channel. -/
theorem c1_register_forwards_typed_registrar
    (r : FlutterDesktopPluginRegistrarRef) (host : HostState) :
    FluxNetPluginCApiRegisterWithRegistrar r host =
      flux_net.FluxNetPlugin.RegisterWithRegistrar
        (PluginRegistrarManager.GetRegistrar r) host ∧
    PluginRegistrarManager.GetRegistrar r ∈
      (FluxNetPluginCApiRegisterWithRegistrar r host).registeredWith ∧
    (FluxNetPluginCApiRegisterWithRegistrar r host).boundChannels =
      host.boundChannels + 1 := by
  refine ⟨rfl, ?_, rfl⟩
  simp [FluxNetPluginCApiRegisterWithRegistrar,
    flux_net.FluxNetPlugin.RegisterWithRegistrar]

/-- C2: every method call delivered to the plugin produces exactly one
completion of the result sink — at least one and at most one outcome. -/
theorem c2_exactly_one_outcome (method_call : MethodCall) :
    (flux_net.FluxNetPlugin.HandleMethodCall method_call).length = 1 :=
  rfl

/-- C3: the registration entry point surfaces no error for any input —
every handle, the null handle `0` included, is forwarded unconditionally
to the host's registrar manager; its body contains no conditional and its
return type is `void`. -/
theorem c3_no_error_surfaced :
    (∀ (r : FlutterDesktopPluginRegistrarRef) (host : HostState),
        FluxNetPluginCApiRegisterWithRegistrar r host =
          flux_net.FluxNetPlugin.RegisterWithRegistrar
            (PluginRegistrarManager.GetRegistrar r) host) ∧
    (cApiBodyOps.all fun op => !(op.kind == .branch)) = true ∧
    (exportedEntryPoints.all fun e => e.returnType == "void") = true :=
  ⟨fun _ _ => rfl, by decide, by decide⟩

/-- C4: `HandleMethodCall` is declared in the fragment but has no
definition there; the fragment's only function definition is the C-API
registration function, so no method-name dispatch, state mutation or
failure handling is implemented in the fragment. -/
theorem c4_handler_is_pure_declaration :
    (fragmentDecls.any fun d =>
        d.name == "HandleMethodCall" && !d.hasDefinition) = true ∧
    (fragmentDecls.all fun d =>
        !(d.name == "HandleMethodCall") || !d.hasDefinition) = true ∧
    (fragmentDecls.all fun d =>
        !d.hasDefinition ||
          d.name == "FluxNetPluginCApiRegisterWithRegistrar") = true ∧
    handleMethodCallBodyOps = [] := by
  refine ⟨by decide, by decide, by decide, rfl⟩

/-- C5: the fragment exposes exactly one externally visible entry point: a
C-linkage registration function taking the single opaque parameter
`FlutterDesktopPluginRegistrarRef`. -/
theorem c5_single_c_entry_point :
    exportedEntryPoints.length = 1 ∧
    (exportedEntryPoints.all fun e =>
        e.name == "FluxNetPluginCApiRegisterWithRegistrar" &&
        e.linkage == Linkage.c &&
        e.params == ["FlutterDesktopPluginRegistrarRef"]) = true := by
  exact ⟨rfl, by decide⟩

/-- C6: the fragment declares no global or static mutable variable of its
own; its one class has the single public base `flutter::Plugin`; and its
sole access to process-global state is the host's registrar-manager
singleton, which is not among the names the fragment declares. -/
theorem c6_no_own_global_state :
    fragmentGlobalVariables = [] ∧
    fragmentClasses.length = 1 ∧
    fluxNetPluginClass.publicBases = ["flutter::Plugin"] ∧
    globalStateAccesses = ["flutter::PluginRegistrarManager::GetInstance"] ∧
    (globalStateAccesses.all fun g =>
        !((fragmentDecls.map CppDecl.name).contains g)) = true := by
  refine ⟨rfl, rfl, rfl, rfl, by decide⟩

/-- C7: no operation of either function body of the fragment branches,
loops, blocks, suspends, or uses a synchronization primitive — both run
straight-line on whatever thread the host dispatches them on. -/
theorem c7_straight_line_no_sync :
    ((cApiBodyOps ++ handleMethodCallBodyOps).all fun op =>
        !(op.kind == OpKind.branch) && !(op.kind == OpKind.loop) &&
        !(op.kind == OpKind.syncPrimitive) &&
        !(op.kind == OpKind.blockingCall)) = true := by
  decide

/-- C8: both the copy constructor and the copy assignment operator of
`FluxNetPlugin` are deleted, so the class is neither copy-constructible
nor copy-assignable. -/
theorem c8_not_copyable :
    (fluxNetPluginClass.members.any fun d =>
        d.kind == CppDeclKind.copyConstructor && d.isDeleted) = true ∧
    (fluxNetPluginClass.members.any fun d =>
        d.kind == CppDeclKind.copyAssignment && d.isDeleted) = true ∧
    copyConstructible fluxNetPluginClass = false ∧
    copyAssignable fluxNetPluginClass = false := by
  refine ⟨by decide, by decide, by decide, by decide⟩

/-- C9: `FluxNetPlugin` declares a virtual destructor and derives publicly
from `flutter::Plugin`; deleting an instance through a `flutter::Plugin`
base pointer is well-defined and runs the `FluxNetPlugin` destructor. -/
theorem c9_polymorphic_deletion_well_defined :
    (fluxNetPluginClass.members.any fun d =>
        d.kind == CppDeclKind.destructor && d.isVirtual) = true ∧
    fluxNetPluginClass.publicBases = ["flutter::Plugin"] ∧
    deleteThroughBase flutterPlugin fluxNetPluginInfo =
      some "FluxNetPlugin" := by
  refine ⟨by decide, rfl, rfl⟩

/-- C10: `FluxNetPlugin` declares no data members, so its per-instance
state space is trivial: any two instance states are equal, and no sequence
of calls can distinguish or change them. -/
theorem c10_stateless_instances :
    fluxNetPluginClass.dataMembers = [] ∧
    ∀ s₁ s₂ : InstanceState fluxNetPluginClass, s₁ = s₂ := by
  refine ⟨rfl, fun s₁ s₂ => ?_⟩
  funext m
  exact absurd m.2 (by simp [fluxNetPluginClass])

end FluxNet
